import Mathlib

/-!
Verification development for the client-side orchestration layer in
`src/static/assistant.js`: a shallow embedding of the message store, the
status-polling loop (`startStatusPolling`), the critique-polling loop
(`startCriticPolling`), the background score refresher (`pollCriticScores`)
and the submission path (`handleSend` / `sendToServer`), together with
theorems about their rendering and polling behaviour.

Modelling conventions, used throughout:
* DOM message bubbles become a list of `Msg` records in document order;
  `querySelector` on `data-message-id` becomes a search on the `id` field.
* A critic-score circle's `textContent` holds a decimal rendering of the
  score; we model the text by its numeric value (a `ℚ`), so two renderings
  are compared as rationals.  Scores are exact rationals, never floats.
* Network interactions are suspensions: each poll tick is driven by the
  value the `fetch` resolved to, given as input to a step function.
* `console.log` / `console.error`, scrolling, CSS animation and the
  opacity toggle in `pollCriticScores` have no modelled effect.
-/

namespace Assistant

/-- Message role: the `role` argument of `addMessageToChat`. -/
inductive Role where
  | user
  | assistant
  deriving DecidableEq, Repr

/-- The critic-score circle (`.critic-score` element) attached to a message
bubble: its colour class and its displayed text (`none` = empty text). -/
structure Badge where
  color : String
  text : Option ℚ
  deriving DecidableEq, Repr

/-- A rendered message bubble: `data-message-id`, text content, role,
optional critic-score circle, and whether it carries the `dummy-message`
class (a placeholder). -/
structure Msg where
  id : String
  text : String
  role : Role
  badge : Option Badge
  isDummy : Bool
  deriving DecidableEq, Repr

/-- The messages container: bubbles in document (append) order. -/
abbrev Dom := List Msg

/-- Colour class chosen for a newly created critic-score circle in
`updateCriticBadge` (assistant.js lines 426-434). -/
def criticBadgeColor (score : ℚ) : String :=
  if score ≥ 9 then "bg-green-500"
  else if score ≥ 8 then "bg-blue-500"
  else if score ≥ 7 then "bg-yellow-500"
  else "bg-red-500"

/-- `updateCriticBadge` (assistant.js lines 416-440), acting on the badge of
an existing message element: if no `.critic-score` circle exists it is
created, with its colour class chosen from the score; then (in either case)
the circle's text is set to the score.  The `toFixed(1)` rendering of the
score is modelled by its numeric value. -/
def updateCriticBadge (b : Option Badge) (score : ℚ) : Badge :=
  match b with
  | none => { color := criticBadgeColor score, text := some score }
  | some b => { b with text := some score }

/-- Replace the first message with the given id (models `querySelector`,
which returns the first match). -/
def updateFirst (dom : Dom) (id : String) (f : Msg → Msg) : Dom :=
  match dom with
  | [] => []
  | m :: rest => if m.id = id then f m :: rest else m :: updateFirst rest id f

/-- `addMessageToChat` (assistant.js lines 89-168).  If a bubble with the
id already exists, only its critic-score circle is touched (created with the
fixed `bg-red-500` class if absent, text set to the raw score) and nothing is
appended; otherwise a new bubble is appended, with a critic circle only when
the role is assistant and a score was passed.  The "Prefer" button and
styling classes are not modelled. -/
def addMessageToChat (dom : Dom) (id text : String) (role : Role)
    (criticScore : Option ℚ) (isDummy : Bool) : Dom :=
  if dom.any (fun m => m.id = id) then
    match criticScore with
    | none => dom
    | some q =>
        updateFirst dom id (fun m =>
          { m with badge := some (match m.badge with
              | none => { color := "bg-red-500", text := some q }
              | some b => { b with text := some q }) })
  else
    dom ++ [{ id := id, text := text, role := role,
              badge := match role, criticScore with
                | Role.assistant, some q =>
                    some { color := "bg-red-500", text := some q }
                | _, _ => none,
              isDummy := isDummy }]

/-- `removePlaceholders` (assistant.js lines 406-414): removes every element
carrying the `dummy-message` class.  The second selector
(`.assistant-message:not([data-message-id])`) matches nothing in this model,
since every bubble built by `addMessageToChat` has a `data-message-id`. -/
def removePlaceholders (dom : Dom) : Dom :=
  dom.filter (fun m => !m.isDummy)

/-- Number of bubbles in the container with the given id. -/
def countId (dom : Dom) (id : String) : Nat :=
  (dom.filter (fun m => m.id = id)).length

/-- The failure path of `sendToServer` (assistant.js lines 370-374 and
398-402): placeholders are purged, then a synthetic assistant error bubble
with the fixed identity `error` is added. -/
def sendToServerFailure (dom : Dom) (errText : String) : Dom :=
  addMessageToChat (removePlaceholders dom) "error" errText Role.assistant none false

/-- JS whitespace, as stripped by `String.prototype.trim`: tab, LF, VT, FF,
CR, space, NBSP, line/paragraph separators, BOM. -/
def isJsWhitespace (c : Char) : Bool :=
  c.toNat ∈ [9, 10, 11, 12, 13, 32, 160, 0x2028, 0x2029, 0xFEFF]

/-- `String.prototype.trim`: drop leading and trailing whitespace. -/
def jsTrim (s : List Char) : List Char :=
  ((s.dropWhile isJsWhitespace).reverse.dropWhile isJsWhitespace).reverse

/-- Result of `handleSend`: the messages container afterwards, and the text
scheduled to be sent to `sendToServer` (if any). -/
structure HandleSendResult where
  dom : Dom
  request : Option (List Char)
  deriving DecidableEq, Repr

/-- `handleSend` (assistant.js lines 693-704): trim the input; if the
trimmed text is falsy (empty) do nothing, otherwise add the two fixed
placeholders and schedule `sendToServer(text)` (the `setTimeout` delay is
not modelled; the scheduled request is returned). -/
def handleSend (input : List Char) (dom : Dom) : HandleSendResult :=
  let text := jsTrim input
  if text.isEmpty then { dom := dom, request := none }
  else
    let d1 := addMessageToChat dom "temp-user" (String.mk text) Role.user none true
    let d2 := addMessageToChat d1 "temp-assistant" "Assistant is typing..."
      Role.assistant none true
    { dom := d2, request := some text }

/-- The `search_results` object of a status payload's `processing_data`. -/
structure SearchResults where
  num_matches : Option Nat
  show_results_to_actor : Bool
  results : Option String
  deriving DecidableEq, Repr

/-- The `processing_data` object of a status payload. -/
structure ProcessingData where
  ner_results : Option String
  search_call : Option String
  search_results : Option SearchResults
  thinking : Option String
  deriving DecidableEq, Repr

/-- One JSON payload of `GET /assistant/chat/status/{message_id}` as read by
the `startStatusPolling` callback. -/
structure StatusSnapshot where
  status : String
  message_id : String
  content : Option String
  critic_score : Option ℚ
  processing_data : Option ProcessingData
  deriving DecidableEq, Repr

/-- JS truthiness of the optional string field `statusData.content`:
present and non-empty. -/
def contentTruthy : Option String → Bool
  | none => false
  | some s => s ≠ ""

/-- The content of the processing-steps container after one
`updateProcessingStepsDisplay` call (assistant.js lines 516-602): the
`innerHTML` is rebuilt from the current snapshot alone.  Without
`processing_data` only a status line is shown; with it, the status line plus
exactly the fields present in the snapshot. -/
structure StepsPanel where
  status : Option String
  ner : Option String
  searchCall : Option String
  searchResults : Option SearchResults
  thinking : Option String
  deriving DecidableEq, Repr

/-- `updateProcessingStepsDisplay` (assistant.js lines 516-602).  The
function assigns `container.innerHTML` a string built only from `statusData`,
so the resulting panel does not depend on what the container showed before;
hence it takes no previous-panel argument. -/
def updateProcessingStepsDisplay (d : StatusSnapshot) : StepsPanel :=
  match d.processing_data with
  | none =>
      { status := some d.status, ner := none, searchCall := none,
        searchResults := none, thinking := none }
  | some pd =>
      { status := some d.status, ner := pd.ner_results,
        searchCall := pd.search_call, searchResults := pd.search_results,
        thinking := pd.thinking }

/-- Outcome of one poll tick's `fetch`: the request rejected (caught by the
`catch` block), resolved with `response.ok` false, or resolved with a JSON
payload. -/
inductive PollResult (α : Type) where
  | transportFail
  | notOk
  | ok (data : α)
  deriving DecidableEq, Repr

/-- The terminal-with-content test of the `startStatusPolling` callback
(assistant.js lines 481-484): status is `response_generated`, `completed` or
`error`, and `statusData.content` is truthy. -/
def qualifies (d : StatusSnapshot) : Bool :=
  (d.status = "response_generated" || d.status = "completed"
    || d.status = "error") && contentTruthy d.content

/-- State owned by one `startStatusPolling` invocation: the closure
variables `lastStatus` and `finalResponseShown`, whether the interval is
still set, the steps container's panel, plus the observables we track (the
sequence of statuses whose arrival re-rendered the panel, the messages
container, the snapshots of the container after each mutation, how many
times `removePlaceholders` ran, and the `startCriticPolling` handoff). -/
structure StatusPollState where
  lastStatus : String
  finalResponseShown : Bool
  active : Bool
  panel : StepsPanel
  renders : List String
  dom : Dom
  domFrames : List Dom
  purgeCount : Nat
  criticStarted : Option String
  deriving DecidableEq, Repr

/-- The initial state of `startStatusPolling` (assistant.js lines 443-457):
fresh steps container, `lastStatus = ''`, `finalResponseShown = false`. -/
def initStatusState (dom₀ : Dom) : StatusPollState :=
  { lastStatus := "", finalResponseShown := false, active := true,
    panel := { status := none, ner := none, searchCall := none,
               searchResults := none, thinking := none },
    renders := [], dom := dom₀, domFrames := [], purgeCount := 0,
    criticStarted := none }

/-- One tick of the `startStatusPolling` interval callback (assistant.js
lines 459-508).  A cleared interval fires no more ticks (identity).  A
rejected fetch reaches the `catch`, which only logs — the interval stays
set.  A non-ok response clears the interval and returns.  Otherwise the
panel is re-rendered when the status differs from `lastStatus` (or no status
was rendered yet), and on the first terminal status with truthy content the
placeholders are purged, the real assistant message is added, the interval
is cleared and `startCriticPolling(messageId)` is started.  In the source
the condition reads `(terminal status) && !finalResponseShown &&
statusData.content`; `qualifies` packages the first and third conjuncts. -/
def statusPollStep (mid : String) (st : StatusPollState)
    (r : PollResult StatusSnapshot) : StatusPollState :=
  if !st.active then st
  else
    match r with
    | PollResult.transportFail => st
    | PollResult.notOk => { st with active := false }
    | PollResult.ok d =>
        let st1 :=
          if d.status ≠ st.lastStatus ∨ st.lastStatus = "" then
            { st with panel := updateProcessingStepsDisplay d,
                      renders := st.renders ++ [d.status],
                      lastStatus := d.status }
          else st
        if qualifies d && !st1.finalResponseShown then
          let purged := removePlaceholders st1.dom
          let dom1 := addMessageToChat purged d.message_id (d.content.getD "")
            Role.assistant d.critic_score false
          { st1 with dom := dom1,
                     domFrames := st1.domFrames ++ [purged, dom1],
                     purgeCount := st1.purgeCount + 1,
                     finalResponseShown := true,
                     active := false,
                     criticStarted := some mid }
        else st1

/-- Run the polling loop from a given state over a finite sequence of poll
outcomes (the loop's 180 s ceiling bounds the sequence; force-stop by the
ceiling only clears the interval and is covered by ending the sequence). -/
def statusRunFrom (mid : String) (st : StatusPollState)
    (trace : List (PollResult StatusSnapshot)) : StatusPollState :=
  trace.foldl (statusPollStep mid) st

/-- `startStatusPolling` (assistant.js lines 443-514) on a message id, an
initial messages container, and the sequence of poll outcomes it observes. -/
def startStatusPolling (mid : String) (dom₀ : Dom)
    (trace : List (PollResult StatusSnapshot)) : StatusPollState :=
  statusRunFrom mid (initStatusState dom₀) trace

/-- Helper for `specRendered`, carrying the last rendered status. -/
def specRenderedAux (lastRendered : String) : List String → List String
  | [] => []
  | s :: rest =>
      if s = lastRendered then specRenderedAux lastRendered rest
      else s :: specRenderedAux s rest

/-- Modelled from the spec's words (§4.2): the statuses that cause a
re-render are exactly those differing from the previously rendered status,
the first observation always rendering. -/
def specRendered : List String → List String
  | [] => []
  | s :: rest => s :: specRenderedAux s rest

/-- A critique block inside the parsed `search_output` JSON; only the
fields the polling logic inspects are modelled. -/
structure Critique where
  total_score : Option ℚ
  summary : Option String
  deriving DecidableEq, Repr

/-- The parse of the opaque `search_output` text. -/
structure CritData where
  critique : Option Critique
  regenerated_content : Option String
  regenerated_critique : Option Critique
  deriving DecidableEq, Repr

/-- The `search_output` field of a message-detail payload: absent (falsy),
present but not well-formed JSON (`JSON.parse` throws), or present and
parsed.  The parse result stands in for the raw text. -/
inductive SearchOutputField where
  | absent
  | malformed
  | parsed (c : CritData)
  deriving DecidableEq, Repr

/-- One JSON payload of `GET /assistant/chat/message/{message_id}`. -/
structure MsgDetail where
  id : String
  critic_score : Option ℚ
  search_output : SearchOutputField
  deriving DecidableEq, Repr

/-- JS truthiness of `msgData.critic_score` (`0` is falsy). -/
def criticScoreTruthy : Option ℚ → Bool
  | none => false
  | some q => q ≠ 0

/-- Closure state of one `startCriticPolling` invocation: the `criticShown`
flag and whether the interval is still set. -/
structure CriticLoopState where
  criticShown : Bool
  active : Bool
  deriving DecidableEq, Repr

/-- Rendered state of the one finalized message the critic machinery writes
to: its critic-score circle, its `data-critique-displayed` attribute, and
how many full critique/regeneration panels have been displayed for it. -/
structure MsgView where
  badge : Option Badge
  critiqueDisplayedAttr : Bool
  panels : Nat
  deriving DecidableEq, Repr

/-- One tick of the `startCriticPolling` interval callback (assistant.js
lines 637-677).  A rejected fetch is only logged; a non-ok response clears
the interval; a falsy `search_output` returns before anything else; a
malformed `search_output` throws in `JSON.parse`, landing in the inner
`catch` before the badge update.  When the parse succeeds: if critique or
regenerated content is present and `criticShown` is still false, the full
panel is displayed (`displayCritiqueInSteps`), `criticShown` is set and the
interval cleared — check and set in one synchronous block; then, gated only
by truthiness of `critic_score`, the badge is updated via
`updateCriticBadge`. -/
def startCriticPollingStep (st : CriticLoopState) (v : MsgView)
    (r : PollResult MsgDetail) : CriticLoopState × MsgView :=
  if !st.active then (st, v)
  else
    match r with
    | PollResult.transportFail => (st, v)
    | PollResult.notOk => ({ st with active := false }, v)
    | PollResult.ok d =>
        match d.search_output with
        | SearchOutputField.absent => (st, v)
        | SearchOutputField.malformed => (st, v)
        | SearchOutputField.parsed c =>
            let stv :=
              if (c.critique.isSome || c.regenerated_content.isSome)
                  && !st.criticShown then
                ({ criticShown := true, active := false },
                 { v with panels := v.panels + 1 })
              else (st, v)
            if criticScoreTruthy d.critic_score then
              (stv.1, { stv.2 with
                badge := some (updateCriticBadge stv.2.badge
                  (d.critic_score.getD 0)) })
            else stv

/-- One tick of the background score refresher `pollCriticScores`
(assistant.js lines 174-228), restricted to the one `scores` entry for the
tracked message (entries for other messages act on other elements).  The
critic circle is created (red, empty text) if absent; when the score is
non-null and differs from the circle's text, the text is overwritten and —
if `data-critique-displayed` is not yet set — a message-detail fetch is
spawned, counted in `pending`.  The attribute is *not* set here: it is set
only later, in the fetch's `.then` (`detailFetchThen`). -/
def pollCriticScoresStep (v : MsgView) (pending : Nat)
    (critic_score : Option ℚ) : MsgView × Nat :=
  let b := v.badge.getD { color := "bg-red-500", text := none }
  match critic_score with
  | none => ({ v with badge := some b }, pending)
  | some q =>
      if b.text = some q then ({ v with badge := some b }, pending)
      else
        let v1 := { v with badge := some { b with text := some q } }
        if v1.critiqueDisplayedAttr then (v1, pending)
        else (v1, pending + 1)

/-- Resolution of one message-detail fetch spawned by `pollCriticScores`
(assistant.js lines 211-219): if the payload has a truthy `search_output`,
`displayCritiqueAndRegeneration` runs (displaying a panel exactly when the
parse succeeds and yields critique or regenerated content; a parse failure
is caught inside it) and then the `data-critique-displayed` attribute is
set.  With no fetch outstanding nothing happens. -/
def detailFetchThen (v : MsgView) (pending : Nat) (d : MsgDetail) :
    MsgView × Nat :=
  if pending = 0 then (v, pending)
  else
    match d.search_output with
    | SearchOutputField.absent => (v, pending - 1)
    | SearchOutputField.malformed =>
        ({ v with critiqueDisplayedAttr := true }, pending - 1)
    | SearchOutputField.parsed c =>
        let v1 :=
          if c.critique.isSome || c.regenerated_content.isSome then
            { v with panels := v.panels + 1 }
          else v
        ({ v1 with critiqueDisplayedAttr := true }, pending - 1)

/-- Combined state for interleaving `startCriticPolling` and
`pollCriticScores` around one finalized message. -/
structure CritScene where
  loop : CriticLoopState
  view : MsgView
  pending : Nat
  deriving DecidableEq, Repr

/-- One scheduler event: a `startCriticPolling` tick with its resolved poll,
a `pollCriticScores` tick whose `scores` carry the tracked message, or the
resolution of a detail fetch spawned by the refresher.  The runtime is a
single-threaded event loop, so an interleaving is a sequence of these. -/
inductive CritEvent where
  | loopPoll (r : PollResult MsgDetail)
  | scorePoll (critic_score : Option ℚ)
  | detailArrive (d : MsgDetail)
  deriving DecidableEq, Repr

/-- Dispatch one event to the corresponding callback. -/
def critSceneStep (s : CritScene) (e : CritEvent) : CritScene :=
  match e with
  | CritEvent.loopPoll r =>
      let lv := startCriticPollingStep s.loop s.view r
      { loop := lv.1, view := lv.2, pending := s.pending }
  | CritEvent.scorePoll q =>
      let vp := pollCriticScoresStep s.view s.pending q
      { loop := s.loop, view := vp.1, pending := vp.2 }
  | CritEvent.detailArrive d =>
      let vp := detailFetchThen s.view s.pending d
      { loop := s.loop, view := vp.1, pending := vp.2 }

/-- Run an interleaving. -/
def runCritScene (s : CritScene) (es : List CritEvent) : CritScene :=
  es.foldl critSceneStep s

/-- Scene state right after `startStatusPolling` hands off to
`startCriticPolling` for a message finalized without a critic score: no
badge yet, attribute unset, no panel shown, loop watching. -/
def handoffScene : CritScene :=
  { loop := { criticShown := false, active := true },
    view := { badge := none, critiqueDisplayedAttr := false, panels := 0 },
    pending := 0 }

/-- Outcome of the `POST /assistant/chat` request issued by `sendToServer`:
the fetch rejected (landing in the `catch`), the payload carried an `error`
field, or it succeeded with the server-issued user message and (optionally)
a pending-turn `message_id`. -/
inductive ServerReply where
  | transportFail
  | errorField (e : String)
  | success (umId umContent : String) (message_id : Option String)
  deriving DecidableEq, Repr

/-- Observables of one turn: every state of the messages container after a
mutation (the frames), how many times `removePlaceholders` ran, and the
final container. -/
structure TurnResult where
  frames : List Dom
  purgeCount : Nat
  finalDom : Dom
  deriving DecidableEq, Repr

/-- `sendToServer` (assistant.js lines 346-403) followed, on success with a
`message_id`, by the `startStatusPolling` loop it starts: add the two
timestamped placeholders; on a transport failure or an `error` payload,
purge placeholders and add the fixed-identity error bubble; on success,
purge placeholders, add the server's user message, and poll.  `tempU` and
`tempA` stand for the `Date.now()`-suffixed placeholder ids. -/
def sendToServer (dom : Dom) (userInput : String) (tempU tempA : String)
    (reply : ServerReply) (trace : List (PollResult StatusSnapshot)) :
    TurnResult :=
  let d1 := addMessageToChat dom tempU userInput Role.user none true
  let d2 := addMessageToChat d1 tempA "Assistant is thinking..."
    Role.assistant none true
  match reply with
  | ServerReply.transportFail =>
      let d3 := removePlaceholders d2
      let d4 := addMessageToChat d3 "error"
        "Error: Failed to get response from server." Role.assistant none false
      { frames := [d1, d2, d3, d4], purgeCount := 1, finalDom := d4 }
  | ServerReply.errorField e =>
      let d3 := removePlaceholders d2
      let d4 := addMessageToChat d3 "error" e Role.assistant none false
      { frames := [d1, d2, d3, d4], purgeCount := 1, finalDom := d4 }
  | ServerReply.success umId umContent mido =>
      let d3 := removePlaceholders d2
      let d4 := addMessageToChat d3 umId umContent Role.user none false
      match mido with
      | none => { frames := [d1, d2, d3, d4], purgeCount := 1, finalDom := d4 }
      | some m =>
          let st := startStatusPolling m d4 trace
          { frames := [d1, d2, d3, d4] ++ st.domFrames,
            purgeCount := 1 + st.purgeCount, finalDom := st.dom }

/-- One full turn: `handleSend` (assistant.js lines 693-704) adding its two
fixed placeholders, then the scheduled `sendToServer` call with a given
reply and status-poll trace.  A whitespace-only input dispatches nothing. -/
def turnRun (dom₀ : Dom) (input : List Char) (tempU tempA : String)
    (reply : ServerReply) (trace : List (PollResult StatusSnapshot)) :
    TurnResult :=
  let h := handleSend input dom₀
  match h.request with
  | none => { frames := [], purgeCount := 0, finalDom := dom₀ }
  | some text =>
      let r := sendToServer h.dom (String.mk text) tempU tempA reply trace
      { frames := h.dom :: r.frames, purgeCount := r.purgeCount,
        finalDom := r.finalDom }

/-- A frame shows some placeholder. -/
def hasDummy (dom : Dom) : Bool :=
  dom.any (fun m => m.isDummy)

/-- A frame shows a non-placeholder message whose id is in the given set
(the turn's real identities). -/
def hasRealOf (dom : Dom) (ids : List String) : Bool :=
  dom.any (fun m => !m.isDummy && m.id ∈ ids)

/-- A message's critic-score circle across a sequence of `updateCriticBadge`
calls: created by the first call (score `s0`), then overwritten by each
later call in turn. -/
def runBadge (s0 : ℚ) (ss : List ℚ) : Badge :=
  ss.foldl (fun b s => updateCriticBadge (some b) s) (updateCriticBadge none s0)

/-- The message ids carried by the `ok` snapshots of a status-poll trace. -/
def traceMsgIds (trace : List (PollResult StatusSnapshot)) : List String :=
  trace.filterMap (fun r =>
    match r with
    | PollResult.ok d => some d.message_id
    | _ => none)

/-- Every identity under which a real (non-placeholder) message of this
turn could be inserted: the fixed error id, the server-issued user-message
id, and the message ids named by the status snapshots. -/
def turnRealIds (reply : ServerReply)
    (trace : List (PollResult StatusSnapshot)) : List String :=
  "error" ::
    (match reply with
     | ServerReply.success umId _ _ => [umId]
     | _ => []) ++ traceMsgIds trace

/-- The last element of a list, or the given default when empty (what a
last-write-wins cell holds after the writes in the list). -/
def lastOr {α : Type} (dflt : α) : List α → α
  | [] => dflt
  | s :: rest => lastOr s rest

/-- Sample snapshot: a non-terminal status with no content. -/
def snapProc : StatusSnapshot :=
  { status := "ner_started", message_id := "m1", content := none,
    critic_score := none, processing_data := none }

/-- Sample snapshot: a terminal status (`completed`) with no content — the
race the loop must keep polling through. -/
def snapNoContent : StatusSnapshot :=
  { status := "completed", message_id := "m1", content := none,
    critic_score := none, processing_data := none }

/-- Sample snapshot: terminal status with content, ending the loop. -/
def snapDone : StatusSnapshot :=
  { status := "response_generated", message_id := "m1",
    content := some "Here are options", critic_score := none,
    processing_data := none }

/-- Sample processing data carrying only NER results. -/
def pdNer : ProcessingData :=
  { ner_results := some "X", search_call := none, search_results := none,
    thinking := none }

/-- Sample processing data carrying only a search call. -/
def pdCall : ProcessingData :=
  { ner_results := none, search_call := some "q", search_results := none,
    thinking := none }

/-- Sample snapshot whose processing data has NER results. -/
def snapNer : StatusSnapshot :=
  { status := "ner_completed", message_id := "m1", content := none,
    critic_score := none, processing_data := some pdNer }

/-- Sample snapshot whose processing data lacks NER results. -/
def snapCall : StatusSnapshot :=
  { status := "search_started", message_id := "m1", content := none,
    critic_score := none, processing_data := some pdCall }

/-- Sample parsed `search_output` carrying a critique and no regeneration. -/
def critiqueOnly : CritData :=
  { critique := some { total_score := some 8, summary := none },
    regenerated_content := none, regenerated_critique := none }

/-- Sample message-detail payload with a critique and a score. -/
def detailWithCritique : MsgDetail :=
  { id := "m1", critic_score := some 8,
    search_output := SearchOutputField.parsed critiqueOnly }

/-- Sample message-detail payload carrying a score but no `search_output`. -/
def detailScoreOnly : MsgDetail :=
  { id := "m1", critic_score := some 8,
    search_output := SearchOutputField.absent }

/-! ## Lemmas about the status-polling loop -/

/-- A cleared interval fires no more callbacks: any tick is the identity. -/
theorem statusPollStep_inactive (mid : String) (st : StatusPollState)
    (r : PollResult StatusSnapshot) (h : st.active = false) :
    statusPollStep mid st r = st := by
  simp [statusPollStep, h]

/-- A cleared interval stays cleared: a whole trace is the identity. -/
theorem statusRunFrom_inactive (mid : String) (st : StatusPollState)
    (trace : List (PollResult StatusSnapshot)) (h : st.active = false) :
    statusRunFrom mid st trace = st := by
  induction trace with
  | nil => rfl
  | cons r rest ih =>
      show statusRunFrom mid (statusPollStep mid st r) rest = st
      rw [statusPollStep_inactive mid st r h, ih]

/-- A tick whose snapshot is not terminal-with-content only re-renders the
panel: the messages container, the frame log, the purge count, the
`finalResponseShown` flag and the critic handoff are untouched, and the
interval stays set. -/
theorem statusPollStep_nonqual (mid : String) (st : StatusPollState)
    (d : StatusSnapshot) (hA : st.active = true) (hq : qualifies d = false) :
    (statusPollStep mid st (PollResult.ok d)).dom = st.dom
    ∧ (statusPollStep mid st (PollResult.ok d)).domFrames = st.domFrames
    ∧ (statusPollStep mid st (PollResult.ok d)).purgeCount = st.purgeCount
    ∧ (statusPollStep mid st (PollResult.ok d)).finalResponseShown
        = st.finalResponseShown
    ∧ (statusPollStep mid st (PollResult.ok d)).criticStarted = st.criticStarted
    ∧ (statusPollStep mid st (PollResult.ok d)).active = true := by
  by_cases hc : d.status ≠ st.lastStatus ∨ st.lastStatus = "" <;>
    simp [statusPollStep, hA, hq, hc]

/-- Over a trace of `ok` snapshots none of which is terminal-with-content,
the loop keeps polling and the core observables are unchanged. -/
theorem statusRunFrom_nonqual (mid : String) (rs : List StatusSnapshot) :
    ∀ st : StatusPollState, st.active = true →
    (∀ d ∈ rs, qualifies d = false) →
    (statusRunFrom mid st (rs.map PollResult.ok)).dom = st.dom
    ∧ (statusRunFrom mid st (rs.map PollResult.ok)).domFrames = st.domFrames
    ∧ (statusRunFrom mid st (rs.map PollResult.ok)).purgeCount = st.purgeCount
    ∧ (statusRunFrom mid st (rs.map PollResult.ok)).finalResponseShown
        = st.finalResponseShown
    ∧ (statusRunFrom mid st (rs.map PollResult.ok)).criticStarted
        = st.criticStarted
    ∧ (statusRunFrom mid st (rs.map PollResult.ok)).active = true := by
  induction rs with
  | nil => intro st hA _; exact ⟨rfl, rfl, rfl, rfl, rfl, hA⟩
  | cons d rest ih =>
      intro st hA hq
      have hd : qualifies d = false := hq d (List.mem_cons_self d rest)
      have hrest : ∀ e ∈ rest, qualifies e = false :=
        fun e he => hq e (List.mem_cons_of_mem d he)
      obtain ⟨s1, s2, s3, s4, s5, s6⟩ := statusPollStep_nonqual mid st d hA hd
      show (statusRunFrom mid (statusPollStep mid st (PollResult.ok d))
          (rest.map PollResult.ok)).dom = st.dom ∧ _
      obtain ⟨r1, r2, r3, r4, r5, r6⟩ :=
        ih (statusPollStep mid st (PollResult.ok d)) s6 hrest
      exact ⟨r1.trans s1, r2.trans s2, r3.trans s3, r4.trans s4,
        r5.trans s5, r6⟩

/-- Unfolding a run one tick at a time. -/
theorem statusRunFrom_cons (mid : String) (st : StatusPollState)
    (r : PollResult StatusSnapshot) (tr : List (PollResult StatusSnapshot)) :
    statusRunFrom mid st (r :: tr)
      = statusRunFrom mid (statusPollStep mid st r) tr := rfl

/-- `startStatusPolling` is the run from the fresh state. -/
theorem startStatusPolling_def (mid : String) (dom₀ : Dom)
    (trace : List (PollResult StatusSnapshot)) :
    startStatusPolling mid dom₀ trace
      = statusRunFrom mid (initStatusState dom₀) trace := rfl

/-- Splitting a run at a trace boundary. -/
theorem statusRunFrom_append (mid : String) (st : StatusPollState)
    (tr1 tr2 : List (PollResult StatusSnapshot)) :
    statusRunFrom mid st (tr1 ++ tr2)
      = statusRunFrom mid (statusRunFrom mid st tr1) tr2 := by
  simp [statusRunFrom, List.foldl_append]

/-- Over non-terminal `ok` ticks the rendered statuses follow the
spec-level dedup relative to the current `lastStatus`, and `lastStatus`
ends at the last observed status. -/
theorem statusRunFrom_renders (mid : String) (rs : List StatusSnapshot) :
    ∀ st : StatusPollState, st.active = true →
    (∀ d ∈ rs, qualifies d = false) → (∀ d ∈ rs, d.status ≠ "") →
    (statusRunFrom mid st (rs.map PollResult.ok)).renders
        = st.renders ++ specRenderedAux st.lastStatus (rs.map StatusSnapshot.status)
    ∧ (statusRunFrom mid st (rs.map PollResult.ok)).lastStatus
        = lastOr st.lastStatus (rs.map StatusSnapshot.status) := by
  induction rs with
  | nil =>
      intro st _ _ _
      exact ⟨by simp [statusRunFrom, specRenderedAux], rfl⟩
  | cons d rest ih =>
      intro st hA hq hs
      have hd : qualifies d = false := hq d (List.mem_cons_self d rest)
      have hds : d.status ≠ "" := hs d (List.mem_cons_self d rest)
      have hqr : ∀ e ∈ rest, qualifies e = false :=
        fun e he => hq e (List.mem_cons_of_mem d he)
      have hsr : ∀ e ∈ rest, e.status ≠ "" :=
        fun e he => hs e (List.mem_cons_of_mem d he)
      rw [List.map_cons, statusRunFrom_cons]
      by_cases hc : d.status ≠ st.lastStatus ∨ st.lastStatus = ""
      · have hne : d.status ≠ st.lastStatus := by
          rcases hc with h | h
          · exact h
          · intro heq; exact hds (by rw [heq, h])
        have hstep : statusPollStep mid st (PollResult.ok d)
            = { st with panel := updateProcessingStepsDisplay d,
                        renders := st.renders ++ [d.status],
                        lastStatus := d.status } := by
          simp [statusPollStep, hA, hd, hc]
        have hAct := (statusPollStep_nonqual mid st d hA hd).2.2.2.2.2
        obtain ⟨ihr, ihl⟩ :=
          ih (statusPollStep mid st (PollResult.ok d)) hAct hqr hsr
        constructor
        · rw [ihr, hstep]
          simp [specRenderedAux, hne]
        · rw [ihl, hstep]
          simp [lastOr]
      · push_neg at hc
        obtain ⟨heq, hnemp⟩ := hc
        have hstep : statusPollStep mid st (PollResult.ok d) = st := by
          simp [statusPollStep, hA, hd, heq, hnemp]
        rw [hstep]
        obtain ⟨ihr, ihl⟩ := ih st hA hqr hsr
        constructor
        · rw [ihr]
          simp [specRenderedAux, heq]
        · rw [ihl]
          simp [lastOr, heq]

/-- On status lists without the empty sentinel, the dedup from the empty
sentinel is the spec-level rendered-status list. -/
theorem specRenderedAux_empty (l : List String) (h : ∀ s ∈ l, s ≠ "") :
    specRenderedAux "" l = specRendered l := by
  cases l with
  | nil => rfl
  | cons s rest =>
      have hs : s ≠ "" := h s (List.mem_cons_self s rest)
      simp [specRenderedAux, specRendered, hs]

/-- Appending one status to the observed sequence appends one render
exactly when it differs from the last status. -/
theorem specRenderedAux_append_single (l : List String) :
    ∀ last s, specRenderedAux last (l ++ [s])
      = specRenderedAux last l ++ (if s = lastOr last l then [] else [s]) := by
  induction l with
  | nil => intro last s; simp [specRenderedAux, lastOr]
  | cons a l ih =>
      intro last s
      by_cases hal : a = last
      · simp [specRenderedAux, hal, ih, lastOr]
      · simp [specRenderedAux, hal, ih, lastOr]

/-- The tick that sees the first terminal-with-content snapshot: purge,
insert the real assistant message, stop, hand off to the critic poller. -/
theorem statusPollStep_qual (mid : String) (st : StatusPollState)
    (d : StatusSnapshot) (hA : st.active = true)
    (hF : st.finalResponseShown = false) (hq : qualifies d = true) :
    (statusPollStep mid st (PollResult.ok d)).dom
        = addMessageToChat (removePlaceholders st.dom) d.message_id
            (d.content.getD "") Role.assistant d.critic_score false
    ∧ (statusPollStep mid st (PollResult.ok d)).domFrames
        = st.domFrames ++ [removePlaceholders st.dom,
            addMessageToChat (removePlaceholders st.dom) d.message_id
              (d.content.getD "") Role.assistant d.critic_score false]
    ∧ (statusPollStep mid st (PollResult.ok d)).purgeCount = st.purgeCount + 1
    ∧ (statusPollStep mid st (PollResult.ok d)).finalResponseShown = true
    ∧ (statusPollStep mid st (PollResult.ok d)).active = false
    ∧ (statusPollStep mid st (PollResult.ok d)).criticStarted = some mid
    ∧ (statusPollStep mid st (PollResult.ok d)).renders
        = st.renders ++ (if d.status ≠ st.lastStatus ∨ st.lastStatus = ""
            then [d.status] else []) := by
  by_cases hc : d.status ≠ st.lastStatus ∨ st.lastStatus = "" <;>
    simp [statusPollStep, hA, hq, hc, hF]

/-- Whatever outcomes a status-poll trace delivers, the loop either never
reaches a terminal-with-content snapshot — leaving the messages container,
the frame log and the purge count untouched — or it purges once and inserts
the real assistant message of the first such snapshot, logging exactly those
two frames. -/
theorem statusRunFrom_frames (mid : String) (tr : List (PollResult StatusSnapshot)) :
    ∀ st : StatusPollState, st.active = true → st.finalResponseShown = false →
    ((statusRunFrom mid st tr).dom = st.dom
      ∧ (statusRunFrom mid st tr).domFrames = st.domFrames
      ∧ (statusRunFrom mid st tr).purgeCount = st.purgeCount)
    ∨ (∃ d : StatusSnapshot, qualifies d = true
        ∧ (statusRunFrom mid st tr).dom
            = addMessageToChat (removePlaceholders st.dom) d.message_id
                (d.content.getD "") Role.assistant d.critic_score false
        ∧ (statusRunFrom mid st tr).domFrames
            = st.domFrames ++ [removePlaceholders st.dom,
                addMessageToChat (removePlaceholders st.dom) d.message_id
                  (d.content.getD "") Role.assistant d.critic_score false]
        ∧ (statusRunFrom mid st tr).purgeCount = st.purgeCount + 1) := by
  induction tr with
  | nil => intro st _ _; exact Or.inl ⟨rfl, rfl, rfl⟩
  | cons r rest ih =>
      intro st hA hF
      rw [statusRunFrom_cons]
      cases r with
      | transportFail =>
          have hstep : statusPollStep mid st PollResult.transportFail = st := by
            simp [statusPollStep, hA]
          rw [hstep]
          exact ih st hA hF
      | notOk =>
          have hstep : statusPollStep mid st PollResult.notOk
              = { st with active := false } := by
            simp [statusPollStep, hA]
          rw [hstep, statusRunFrom_inactive mid _ rest rfl]
          exact Or.inl ⟨rfl, rfl, rfl⟩
      | ok d =>
          by_cases hq : qualifies d = true
          · obtain ⟨e1, e2, e3, _, e5, _, _⟩ := statusPollStep_qual mid st d hA hF hq
            rw [statusRunFrom_inactive mid _ rest e5]
            exact Or.inr ⟨d, hq, e1, e2, e3⟩
          · have hq' : qualifies d = false := by
              revert hq; cases qualifies d <;> simp
            obtain ⟨s1, s2, s3, s4, _, s6⟩ := statusPollStep_nonqual mid st d hA hq'
            have hF' : (statusPollStep mid st (PollResult.ok d)).finalResponseShown
                = false := s4.trans hF
            rcases ih (statusPollStep mid st (PollResult.ok d)) s6 hF' with
              ⟨a1, a2, a3⟩ | ⟨d', hqd, a1, a2, a3⟩
            · exact Or.inl ⟨a1.trans s1, a2.trans s2, a3.trans s3⟩
            · refine Or.inr ⟨d', hqd, ?_, ?_, ?_⟩
              · rw [a1, s1]
              · rw [a2, s2, s1]
              · rw [a3, s3]

/-! ## Lemmas about the message store and placeholders -/

/-- Purging leaves no placeholder behind. -/
theorem hasDummy_removePlaceholders (dom : Dom) :
    hasDummy (removePlaceholders dom) = false := by
  simp [hasDummy, removePlaceholders]

/-- Replacing a message's badge does not change which ids are present or
which messages are placeholders. -/
theorem updateFirst_fields (dom : Dom) (id : String) (f : Msg → Msg)
    (hf : ∀ m, (f m).id = m.id ∧ (f m).isDummy = m.isDummy) :
    (updateFirst dom id f).map (fun m => (m.id, m.isDummy))
      = dom.map (fun m => (m.id, m.isDummy)) := by
  induction dom with
  | nil => rfl
  | cons m rest ih =>
      by_cases hm : m.id = id
      · simp [updateFirst, hm, (hf m).1, (hf m).2]
      · simp [updateFirst, hm, ih]

/-- Adding a placeholder never makes a real message of the turn appear. -/
theorem hasRealOf_addDummy (dom : Dom) (id text : String) (role : Role)
    (ids : List String) :
    hasRealOf (addMessageToChat dom id text role none true) ids
      = hasRealOf dom ids := by
  by_cases hex : dom.any (fun m => m.id = id)
  · simp [addMessageToChat, hex]
  · simp only [addMessageToChat, hex, if_false, Bool.false_eq_true]
    simp [hasRealOf]

/-- Inserting a non-placeholder message keeps the container free of
placeholders. -/
theorem hasDummy_add_nondummy (dom : Dom) (id text : String) (role : Role)
    (criticScore : Option ℚ) (h : hasDummy dom = false) :
    hasDummy (addMessageToChat dom id text role criticScore false) = false := by
  by_cases hex : dom.any (fun m => m.id = id)
  · cases criticScore with
    | none => simpa [addMessageToChat, hex]
    | some q =>
        simp only [addMessageToChat, hex, if_true]
        have hmap := updateFirst_fields dom id
          (fun m => { m with badge := some (match m.badge with
            | none => { color := "bg-red-500", text := some q }
            | some b => { b with text := some q }) }) (fun m => ⟨rfl, rfl⟩)
        have key : ∀ l : Dom,
            hasDummy l = (l.map (fun m => (m.id, m.isDummy))).any (fun p => p.2) := by
          intro l
          induction l with
          | nil => rfl
          | cons m t ih =>
              simp only [hasDummy, List.map_cons, List.any_cons] at ih ⊢
              rw [ih]
        rw [key, hmap, ← key]
        exact h
  · simp only [addMessageToChat, hex, if_false, Bool.false_eq_true]
    simp only [hasDummy, List.any_append] at h ⊢
    simp [h]

/-- Every message of the purged container was already in the container. -/
theorem mem_removePlaceholders (dom : Dom) (m : Msg)
    (hm : m ∈ removePlaceholders dom) : m ∈ dom :=
  List.mem_of_mem_filter hm

/-- Purging twice is the same as purging once. -/
theorem removePlaceholders_idem (dom : Dom) :
    removePlaceholders (removePlaceholders dom) = removePlaceholders dom := by
  simp [removePlaceholders, List.filter_filter]

/-- Starting from a placeholder-free container, every container state the
status loop produces is placeholder-free, and it purges at most once. -/
theorem startStatusPolling_frames_clean (mid : String) (dom₄ : Dom)
    (tr : List (PollResult StatusSnapshot)) (h4 : hasDummy dom₄ = false) :
    (∀ f ∈ (startStatusPolling mid dom₄ tr).domFrames, hasDummy f = false)
    ∧ ((startStatusPolling mid dom₄ tr).purgeCount = 0
        ∨ (startStatusPolling mid dom₄ tr).purgeCount = 1)
    ∧ hasDummy (startStatusPolling mid dom₄ tr).dom = false := by
  rw [startStatusPolling_def]
  rcases statusRunFrom_frames mid tr (initStatusState dom₄) rfl rfl with
    ⟨a1, a2, a3⟩ | ⟨d, _, a1, a2, a3⟩
  · refine ⟨?_, Or.inl a3, ?_⟩
    · intro f hf
      rw [a2] at hf
      simp [initStatusState] at hf
    · rw [a1]
      exact h4
  · refine ⟨?_, Or.inr a3, ?_⟩
    · intro f hf
      rw [a2] at hf
      simp only [initStatusState, List.nil_append, List.mem_cons,
        List.not_mem_nil, or_false] at hf
      rcases hf with rfl | rfl
      · exact hasDummy_removePlaceholders _
      · exact hasDummy_add_nondummy _ _ _ _ _ (hasDummy_removePlaceholders _)
    · rw [a1]
      exact hasDummy_add_nondummy _ _ _ _ _ (hasDummy_removePlaceholders _)

/-- Within `sendToServer` and the status loop it starts, every container
state either contains no placeholder or contains no real message of the
turn, the purge runs once or twice, and the final container is
placeholder-free. -/
theorem sendToServer_discipline (dom : Dom) (userInput : String)
    (tempU tempA : String) (reply : ServerReply)
    (trace : List (PollResult StatusSnapshot))
    (hreal : hasRealOf dom (turnRealIds reply trace) = false) :
    (∀ f ∈ (sendToServer dom userInput tempU tempA reply trace).frames,
        hasDummy f = false
        ∨ hasRealOf f (turnRealIds reply trace) = false)
    ∧ ((sendToServer dom userInput tempU tempA reply trace).purgeCount = 1
        ∨ (sendToServer dom userInput tempU tempA reply trace).purgeCount = 2)
    ∧ hasDummy (sendToServer dom userInput tempU tempA reply trace).finalDom
        = false := by
  cases reply with
  | transportFail =>
      refine ⟨?_, Or.inl rfl, ?_⟩
      · intro f hf
        simp only [sendToServer, List.mem_cons, List.not_mem_nil, or_false] at hf
        rcases hf with rfl | rfl | rfl | rfl
        · exact Or.inr (by rw [hasRealOf_addDummy]; exact hreal)
        · exact Or.inr (by rw [hasRealOf_addDummy, hasRealOf_addDummy]; exact hreal)
        · exact Or.inl (hasDummy_removePlaceholders _)
        · exact Or.inl (hasDummy_add_nondummy _ _ _ _ _ (hasDummy_removePlaceholders _))
      · simp only [sendToServer]
        exact hasDummy_add_nondummy _ _ _ _ _ (hasDummy_removePlaceholders _)
  | errorField e =>
      refine ⟨?_, Or.inl rfl, ?_⟩
      · intro f hf
        simp only [sendToServer, List.mem_cons, List.not_mem_nil, or_false] at hf
        rcases hf with rfl | rfl | rfl | rfl
        · exact Or.inr (by rw [hasRealOf_addDummy]; exact hreal)
        · exact Or.inr (by rw [hasRealOf_addDummy, hasRealOf_addDummy]; exact hreal)
        · exact Or.inl (hasDummy_removePlaceholders _)
        · exact Or.inl (hasDummy_add_nondummy _ _ _ _ _ (hasDummy_removePlaceholders _))
      · simp only [sendToServer]
        exact hasDummy_add_nondummy _ _ _ _ _ (hasDummy_removePlaceholders _)
  | success umId umContent mido =>
      cases mido with
      | none =>
          refine ⟨?_, Or.inl rfl, ?_⟩
          · intro f hf
            simp only [sendToServer, List.mem_cons, List.not_mem_nil, or_false] at hf
            rcases hf with rfl | rfl | rfl | rfl
            · exact Or.inr (by rw [hasRealOf_addDummy]; exact hreal)
            · exact Or.inr (by rw [hasRealOf_addDummy, hasRealOf_addDummy]; exact hreal)
            · exact Or.inl (hasDummy_removePlaceholders _)
            · exact Or.inl (hasDummy_add_nondummy _ _ _ _ _ (hasDummy_removePlaceholders _))
          · simp only [sendToServer]
            exact hasDummy_add_nondummy _ _ _ _ _ (hasDummy_removePlaceholders _)
      | some m =>
          obtain ⟨p1, p2, p3⟩ := startStatusPolling_frames_clean m
            (addMessageToChat (removePlaceholders
              (addMessageToChat
                (addMessageToChat dom tempU userInput Role.user none true)
                tempA "Assistant is thinking..." Role.assistant none true))
              umId umContent Role.user none false)
            trace
            (hasDummy_add_nondummy _ _ _ _ _ (hasDummy_removePlaceholders _))
          refine ⟨?_, ?_, ?_⟩
          · intro f hf
            simp only [sendToServer, List.mem_append, List.mem_cons,
              List.not_mem_nil, or_false] at hf
            rcases hf with (rfl | rfl | rfl | rfl) | hf
            · exact Or.inr (by rw [hasRealOf_addDummy]; exact hreal)
            · exact Or.inr (by rw [hasRealOf_addDummy, hasRealOf_addDummy]; exact hreal)
            · exact Or.inl (hasDummy_removePlaceholders _)
            · exact Or.inl (hasDummy_add_nondummy _ _ _ _ _ (hasDummy_removePlaceholders _))
            · exact Or.inl (p1 f hf)
          · show 1 + (startStatusPolling m _ trace).purgeCount = 1
              ∨ 1 + (startStatusPolling m _ trace).purgeCount = 2
            rcases p2 with h | h
            · exact Or.inl (by rw [h])
            · exact Or.inr (by rw [h])
          · exact p3

/-! ## Lemmas about trimming -/

/-- Dropping a predicate that holds everywhere drops everything. -/
theorem dropWhile_eq_nil_of_all {α : Type} (p : α → Bool) (l : List α)
    (h : l.all p = true) : l.dropWhile p = [] := by
  induction l with
  | nil => rfl
  | cons c t ih =>
      simp only [List.all_cons, Bool.and_eq_true] at h
      simp [List.dropWhile_cons, h.1, ih h.2]

/-- A whitespace-only input trims to the empty text. -/
theorem jsTrim_eq_nil_of_all (input : List Char)
    (h : input.all isJsWhitespace = true) : jsTrim input = [] := by
  rw [jsTrim, dropWhile_eq_nil_of_all isJsWhitespace input h]
  rfl

/-! ## Claim theorems -/

/-- C1: the spec claims that for every interleaving of the CriticPoller
loop and the background score refresher the full critique/regeneration
panel is displayed at most once per message, with the gate checked and set
in one synchronous step.  The code violates this: `startCriticPolling`
gates on the closure variable `criticShown` while `pollCriticScores` gates
on the `data-critique-displayed` attribute, which it sets only in the
`.then` of an awaited detail fetch.  Evaluating the interleaving
[loop tick shows the panel; refresher tick sees a changed score with the
attribute still unset and spawns a detail fetch; the fetch resolves and
shows the panel again] displays the panel twice for the same message. -/
theorem critique_panel_displayed_twice_under_interleaving :
    (runCritScene handoffScene
      [CritEvent.loopPoll (PollResult.ok detailWithCritique),
       CritEvent.scorePoll (some 9),
       CritEvent.detailArrive detailWithCritique]).view.panels = 2 := by decide

/-- C3 counterexample: the claim says any single failed poll — transport
error or non-success response — silently aborts the StatusPoller loop with
no retry.  In the code a rejected fetch lands in the `catch`, which only
logs: after a transport error the interval is still set and the next poll
still takes effect (here it re-renders the panel). -/
theorem transport_error_does_not_abort_status_loop :
    (startStatusPolling "m1" [] [PollResult.transportFail]).active = true
    ∧ (startStatusPolling "m1" []
        [PollResult.transportFail, PollResult.ok snapProc]).renders
      = ["ner_started"] := by decide

/-- C3 amended: a non-success HTTP response silently aborts the status
loop — the interval is cleared, nothing is retried and no message (in
particular no error bubble) is added; a transport error (rejected request)
is only logged and leaves the loop state completely unchanged, so polling
continues.  Neither failure produces a user-visible error. -/
theorem status_poll_failure_semantics (mid : String) (st : StatusPollState)
    (h : st.active = true) :
    (statusPollStep mid st PollResult.notOk).active = false
    ∧ (statusPollStep mid st PollResult.notOk).dom = st.dom
    ∧ (statusPollStep mid st PollResult.notOk).renders = st.renders
    ∧ statusPollStep mid st PollResult.transportFail = st := by
  refine ⟨?_, ?_, ?_, ?_⟩ <;> simp [statusPollStep, h]

/-- Witness for `status_poll_failure_semantics` at a concrete state. -/
theorem status_poll_failure_semantics_witness :
    (initStatusState []).active = true
    ∧ (statusPollStep "m1" (initStatusState []) PollResult.notOk).active = false
    ∧ statusPollStep "m1" (initStatusState []) PollResult.transportFail
        = initStatusState [] :=
  ⟨rfl, (status_poll_failure_semantics "m1" (initStatusState []) rfl).1,
    (status_poll_failure_semantics "m1" (initStatusState []) rfl).2.2.2⟩

/-- C2: the StatusPoller loop stops and creates the real assistant message
exactly at the first `ok` snapshot whose status is `response_generated`,
`completed` or `error` *and* whose content is truthy: before that the
container is untouched, the loop stays active and no handoff happens (in
particular a terminal status without content keeps the loop polling);
at that snapshot placeholders are purged once, the assistant message is
added from the snapshot, the interval is cleared, the critique poller is
started, and later snapshots are ignored. -/
theorem startStatusPolling_stops_on_first_terminal_with_content
    (mid : String) (dom₀ : Dom) :
    (∀ rs : List StatusSnapshot, (∀ d ∈ rs, qualifies d = false) →
      (startStatusPolling mid dom₀ (rs.map PollResult.ok)).dom = dom₀
      ∧ (startStatusPolling mid dom₀ (rs.map PollResult.ok)).active = true
      ∧ (startStatusPolling mid dom₀
          (rs.map PollResult.ok)).finalResponseShown = false
      ∧ (startStatusPolling mid dom₀ (rs.map PollResult.ok)).criticStarted
          = none)
    ∧ (∀ (pre : List StatusSnapshot) (d : StatusSnapshot)
        (post : List StatusSnapshot),
      (∀ e ∈ pre, qualifies e = false) → qualifies d = true →
      (startStatusPolling mid dom₀ ((pre ++ d :: post).map PollResult.ok)).dom
          = addMessageToChat (removePlaceholders dom₀) d.message_id
              (d.content.getD "") Role.assistant d.critic_score false
      ∧ (startStatusPolling mid dom₀
          ((pre ++ d :: post).map PollResult.ok)).active = false
      ∧ (startStatusPolling mid dom₀
          ((pre ++ d :: post).map PollResult.ok)).finalResponseShown = true
      ∧ (startStatusPolling mid dom₀
          ((pre ++ d :: post).map PollResult.ok)).criticStarted = some mid
      ∧ (startStatusPolling mid dom₀
          ((pre ++ d :: post).map PollResult.ok)).purgeCount = 1) := by
  constructor
  · intro rs hq
    obtain ⟨r1, _, _, r4, r5, r6⟩ :=
      statusRunFrom_nonqual mid rs (initStatusState dom₀) rfl hq
    rw [startStatusPolling_def]
    exact ⟨r1, r6, r4, r5⟩
  · intro pre d post hpre hd
    rw [startStatusPolling_def, List.map_append, statusRunFrom_append,
      List.map_cons, statusRunFrom_cons]
    obtain ⟨r1, _, r3, r4, _, r6⟩ :=
      statusRunFrom_nonqual mid pre (initStatusState dom₀) rfl hpre
    obtain ⟨e1, _, e3, e4, e5, e6, _⟩ :=
      statusPollStep_qual mid (statusRunFrom mid (initStatusState dom₀)
        (pre.map PollResult.ok)) d r6 (r4.trans rfl) hd
    rw [statusRunFrom_inactive mid _ (post.map PollResult.ok) e5]
    refine ⟨?_, e5, e4, e6, ?_⟩
    · rw [e1, r1]
      rfl
    · rw [e3, r3]
      rfl

/-- Witness for `startStatusPolling_stops_on_first_terminal_with_content`:
a non-terminal status and a terminal-without-content snapshot keep the
loop going; the terminal snapshot with content inserts the message. -/
theorem startStatusPolling_stops_on_first_terminal_with_content_witness :
    ((∀ e ∈ [snapProc, snapNoContent], qualifies e = false)
      ∧ qualifies snapDone = true)
    ∧ (startStatusPolling "m1" []
        (([snapProc, snapNoContent] ++ snapDone :: []).map PollResult.ok)).dom
      = addMessageToChat (removePlaceholders []) snapDone.message_id
          (snapDone.content.getD "") Role.assistant snapDone.critic_score
          false :=
  ⟨⟨by decide, by decide⟩,
    ((startStatusPolling_stops_on_first_terminal_with_content "m1" []).2
      [snapProc, snapNoContent] snapDone [] (by decide) (by decide)).1⟩

/-- C4: over the snapshots one StatusPoller loop observes (statuses drawn
from the closed, non-empty status vocabulary), the panel re-renders exactly
when the status differs from the previously rendered one — the first
observation always renders, a repeated identical status never does: the
rendered-status sequence equals the spec-level `specRendered` dedup, both
for loops that never terminate and for loops ended by the first
terminal-with-content snapshot. -/
theorem status_panel_rerenders_iff_status_changes (mid : String) (dom₀ : Dom) :
    (∀ rs : List StatusSnapshot,
      (∀ d ∈ rs, qualifies d = false) → (∀ d ∈ rs, d.status ≠ "") →
      (startStatusPolling mid dom₀ (rs.map PollResult.ok)).renders
        = specRendered (rs.map StatusSnapshot.status))
    ∧ (∀ (pre : List StatusSnapshot) (d : StatusSnapshot)
        (post : List StatusSnapshot),
      (∀ e ∈ pre, qualifies e = false) → (∀ e ∈ pre, e.status ≠ "") →
      qualifies d = true → d.status ≠ "" →
      (startStatusPolling mid dom₀
          ((pre ++ d :: post).map PollResult.ok)).renders
        = specRendered ((pre ++ [d]).map StatusSnapshot.status)) := by
  constructor
  · intro rs hq hs
    obtain ⟨hr, _⟩ :=
      statusRunFrom_renders mid rs (initStatusState dom₀) rfl hq hs
    have hsall : ∀ s ∈ rs.map StatusSnapshot.status, s ≠ "" := by
      intro s hsm
      obtain ⟨e, he, hes⟩ := List.mem_map.mp hsm
      rw [← hes]
      exact hs e he
    rw [startStatusPolling_def, hr, ← specRenderedAux_empty _ hsall]
    simp [initStatusState]
  · intro pre d post hqp hsp hd hds
    obtain ⟨hr, hl⟩ :=
      statusRunFrom_renders mid pre (initStatusState dom₀) rfl hqp hsp
    obtain ⟨_, _, _, r4, _, r6⟩ :=
      statusRunFrom_nonqual mid pre (initStatusState dom₀) rfl hqp
    obtain ⟨_, _, _, _, e5, _, e7⟩ :=
      statusPollStep_qual mid (statusRunFrom mid (initStatusState dom₀)
        (pre.map PollResult.ok)) d r6 (r4.trans rfl) hd
    rw [startStatusPolling_def, List.map_append, statusRunFrom_append,
      List.map_cons, statusRunFrom_cons,
      statusRunFrom_inactive mid _ (post.map PollResult.ok) e5, e7, hr, hl]
    have hsall : ∀ s ∈ (pre ++ [d]).map StatusSnapshot.status, s ≠ "" := by
      intro s hsm
      obtain ⟨e, he, hes⟩ := List.mem_map.mp hsm
      rw [← hes]
      rcases List.mem_append.mp he with h1 | h1
      · exact hsp e h1
      · rw [List.mem_singleton.mp h1]
        exact hds
    rw [← specRenderedAux_empty _ hsall, List.map_append,
      show List.map StatusSnapshot.status [d] = [d.status] from rfl,
      specRenderedAux_append_single]
    simp only [initStatusState]
    by_cases hcase : d.status = lastOr "" (pre.map StatusSnapshot.status)
    · have hLne : lastOr "" (pre.map StatusSnapshot.status) ≠ "" :=
        fun h0 => hds (hcase.trans h0)
      simp [hcase, hLne]
    · simp [hcase]

/-- Witness for `status_panel_rerenders_iff_status_changes`: a repeated
status renders once. -/
theorem status_panel_rerenders_iff_status_changes_witness :
    ((∀ e ∈ [snapProc, snapProc, snapNoContent], qualifies e = false)
      ∧ (∀ e ∈ [snapProc, snapProc, snapNoContent], e.status ≠ ""))
    ∧ (startStatusPolling "m1" []
        ([snapProc, snapProc, snapNoContent].map PollResult.ok)).renders
      = specRendered
          ([snapProc, snapProc, snapNoContent].map StatusSnapshot.status) :=
  ⟨⟨by decide, by decide⟩,
    (status_panel_rerenders_iff_status_changes "m1" []).1
      [snapProc, snapProc, snapNoContent] (by decide) (by decide)⟩

/-- C6 counterexample: the claim says placeholders are purged exactly once
per turn.  On a successful turn whose status trace delivers the final
response, `removePlaceholders` runs twice: once in `sendToServer` after
the submit response, and again in the polling callback before the final
assistant message is inserted. -/
theorem placeholders_purged_twice_on_successful_turn :
    (turnRun [] ['h', 'i'] "temp-user-1" "temp-assistant-1"
      (ServerReply.success "u1" "hi" (some "m1"))
      [PollResult.ok snapDone]).purgeCount = 2 := by decide

/-- C6 amended: within one turn, placeholders are purged at least once and
always strictly before a real or error message of the turn is inserted —
every observable container state is free of placeholders or free of the
turn's real messages, and the final state is free of placeholders; but the
purge is not exactly once per turn: it runs once on the error path and a
second time (as a no-op) on a successful turn whose polling delivers the
final assistant message, so the per-turn count is one or two. -/
theorem turn_placeholder_purge_discipline (dom₀ : Dom) (input : List Char)
    (tempU tempA : String) (reply : ServerReply)
    (trace : List (PollResult StatusSnapshot))
    (hin : jsTrim input ≠ [])
    (hids : ∀ m ∈ dom₀, m.id ∉ turnRealIds reply trace) :
    (∀ f ∈ (turnRun dom₀ input tempU tempA reply trace).frames,
        hasDummy f = false
        ∨ hasRealOf f (turnRealIds reply trace) = false)
    ∧ ((turnRun dom₀ input tempU tempA reply trace).purgeCount = 1
        ∨ (turnRun dom₀ input tempU tempA reply trace).purgeCount = 2)
    ∧ hasDummy (turnRun dom₀ input tempU tempA reply trace).finalDom
        = false := by
  have hreal0 : hasRealOf dom₀ (turnRealIds reply trace) = false := by
    rw [hasRealOf, List.any_eq_false]
    intro m hm
    simp [hids m hm]
  cases hjt : jsTrim input with
  | nil => exact absurd hjt hin
  | cons c t =>
      have hreal2 : hasRealOf (addMessageToChat
          (addMessageToChat dom₀ "temp-user" (String.mk (c :: t))
            Role.user none true)
          "temp-assistant" "Assistant is typing..." Role.assistant none true)
          (turnRealIds reply trace) = false := by
        rw [hasRealOf_addDummy, hasRealOf_addDummy]
        exact hreal0
      obtain ⟨q1, q2, q3⟩ := sendToServer_discipline
        (addMessageToChat
          (addMessageToChat dom₀ "temp-user" (String.mk (c :: t))
            Role.user none true)
          "temp-assistant" "Assistant is typing..." Role.assistant none true)
        (String.mk (c :: t)) tempU tempA reply trace hreal2
      refine ⟨?_, ?_, ?_⟩
      · intro f hf
        simp only [turnRun, handleSend, hjt, List.isEmpty_cons,
          Bool.false_eq_true, if_false, List.mem_cons] at hf
        rcases hf with rfl | hf
        · exact Or.inr hreal2
        · exact q1 f hf
      · simp only [turnRun, handleSend, hjt, List.isEmpty_cons,
          Bool.false_eq_true, if_false]
        exact q2
      · simp only [turnRun, handleSend, hjt, List.isEmpty_cons,
          Bool.false_eq_true, if_false]
        exact q3

/-- Witness for `turn_placeholder_purge_discipline` on a successful turn. -/
theorem turn_placeholder_purge_discipline_witness :
    (jsTrim ['h', 'i'] ≠ []
      ∧ (∀ m ∈ ([] : Dom), m.id ∉ turnRealIds
          (ServerReply.success "u1" "hi" (some "m1"))
          [PollResult.ok snapDone]))
    ∧ ((turnRun [] ['h', 'i'] "temp-user-1" "temp-assistant-1"
        (ServerReply.success "u1" "hi" (some "m1"))
        [PollResult.ok snapDone]).purgeCount = 1
      ∨ (turnRun [] ['h', 'i'] "temp-user-1" "temp-assistant-1"
        (ServerReply.success "u1" "hi" (some "m1"))
        [PollResult.ok snapDone]).purgeCount = 2) :=
  ⟨⟨by decide, by simp⟩,
    (turn_placeholder_purge_discipline [] ['h', 'i'] "temp-user-1"
      "temp-assistant-1" (ServerReply.success "u1" "hi" (some "m1"))
      [PollResult.ok snapDone] (by decide) (by simp)).2.1⟩

/-- C5 counterexample: the claim says a processing-data field, once
rendered, is never retracted by a later snapshot's render.  Rendering a
snapshot with NER results and then one (with a new status) whose
processing data lacks them leaves the panel without the NER section. -/
theorem steps_panel_retracts_absent_field :
    (startStatusPolling "m1" [] ([snapNer].map PollResult.ok)).panel.ner
        = some "X"
    ∧ (startStatusPolling "m1" []
        ([snapNer, snapCall].map PollResult.ok)).panel.ner = none := by decide

/-- C5 amended: each re-render rebuilds the steps panel from the current
snapshot alone — the panel after any rendering tick equals the projection
of that snapshot, showing exactly the fields the snapshot carries; fields
absent from it (or its whole `processing_data`) are not shown, however
they may have been rendered before. -/
theorem steps_panel_shows_exactly_current_snapshot_fields (mid : String)
    (st : StatusPollState) (d : StatusSnapshot) (hA : st.active = true)
    (hr : d.status ≠ st.lastStatus ∨ st.lastStatus = "") :
    (statusPollStep mid st (PollResult.ok d)).panel
        = updateProcessingStepsDisplay d
    ∧ (∀ pd, d.processing_data = some pd →
        updateProcessingStepsDisplay d
          = { status := some d.status, ner := pd.ner_results,
              searchCall := pd.search_call,
              searchResults := pd.search_results,
              thinking := pd.thinking })
    ∧ (d.processing_data = none →
        updateProcessingStepsDisplay d
          = { status := some d.status, ner := none, searchCall := none,
              searchResults := none, thinking := none }) := by
  refine ⟨?_, ?_, ?_⟩
  · simp only [statusPollStep, hA, Bool.not_true, Bool.false_eq_true,
      if_false, hr, if_true]
    split <;> rfl
  · intro pd hpd
    simp [updateProcessingStepsDisplay, hpd]
  · intro hpd
    simp [updateProcessingStepsDisplay, hpd]

/-- Witness for `steps_panel_shows_exactly_current_snapshot_fields`. -/
theorem steps_panel_shows_exactly_current_snapshot_fields_witness :
    ((initStatusState []).active = true
      ∧ (snapNer.status ≠ (initStatusState []).lastStatus
          ∨ (initStatusState []).lastStatus = ""))
    ∧ (statusPollStep "m1" (initStatusState []) (PollResult.ok snapNer)).panel
        = updateProcessingStepsDisplay snapNer :=
  ⟨⟨rfl, by decide⟩,
    (steps_panel_shows_exactly_current_snapshot_fields "m1"
      (initStatusState []) snapNer rfl (by decide)).1⟩

/-- C7 counterexample: the claim says every successful CriticPoller poll
carrying a critic score updates the badge.  A successful poll whose
payload has a score but no `search_output` returns before the badge
update, leaving the badge untouched. -/
theorem badge_not_updated_without_search_output :
    criticScoreTruthy detailScoreOnly.critic_score = true
    ∧ (startCriticPollingStep { criticShown := false, active := true }
        { badge := none, critiqueDisplayedAttr := false, panels := 0 }
        (PollResult.ok detailScoreOnly)).2.badge = none := by decide

/-- C7 amended: the badge is updated on every successful CriticPoller poll
whose payload carries a `search_output` that parses as JSON together with
a truthy critic score; that update is an `updateCriticBadge` overwrite and
is not gated by `criticShown` (it happens for either value of the flag,
including on the very tick that displays the panel). -/
theorem badge_updated_on_every_parsed_poll_with_score (shown : Bool)
    (v : MsgView) (d : MsgDetail) (c : CritData)
    (hso : d.search_output = SearchOutputField.parsed c)
    (hsc : criticScoreTruthy d.critic_score = true) :
    ((startCriticPollingStep { criticShown := shown, active := true } v
        (PollResult.ok d)).2).badge
      = some (updateCriticBadge v.badge (d.critic_score.getD 0)) := by
  by_cases hb : (c.critique.isSome || c.regenerated_content.isSome) && !shown <;>
    simp [startCriticPollingStep, hso, hsc, hb]

/-- Witness for `badge_updated_on_every_parsed_poll_with_score`, with the
gate already set (`criticShown = true`): the badge still updates. -/
theorem badge_updated_on_every_parsed_poll_with_score_witness :
    (detailWithCritique.search_output = SearchOutputField.parsed critiqueOnly
      ∧ criticScoreTruthy detailWithCritique.critic_score = true)
    ∧ ((startCriticPollingStep { criticShown := true, active := true }
        { badge := none, critiqueDisplayedAttr := false, panels := 0 }
        (PollResult.ok detailWithCritique)).2).badge
      = some (updateCriticBadge none (detailWithCritique.critic_score.getD 0)) :=
  ⟨⟨rfl, by decide⟩,
    badge_updated_on_every_parsed_poll_with_score true
      { badge := none, critiqueDisplayedAttr := false, panels := 0 }
      detailWithCritique critiqueOnly rfl (by decide)⟩

/-- C8: the synthetic error bubble has the fixed identity `error`, and
`addMessageToChat` does not append when an element with that id exists: on
a first submission failure exactly one error bubble exists, and a second
failure in the same session leaves the container exactly as it was — no
new visible error message. -/
theorem single_error_bubble_per_session (dom : Dom) (e1 e2 : String)
    (h : ∀ m ∈ dom, m.id ≠ "error") :
    countId (sendToServerFailure dom e1) "error" = 1
    ∧ sendToServerFailure (sendToServerFailure dom e1) e2
        = sendToServerFailure dom e1 := by
  have hp : ∀ m ∈ removePlaceholders dom, m.id ≠ "error" := fun m hm =>
    h m (mem_removePlaceholders dom m hm)
  have hany : (removePlaceholders dom).any (fun m => m.id = "error") = false := by
    rw [List.any_eq_false]
    intro m hm
    simp [hp m hm]
  have h1 : sendToServerFailure dom e1
      = removePlaceholders dom
        ++ [{ id := "error", text := e1, role := Role.assistant,
              badge := none, isDummy := false }] := by
    simp [sendToServerFailure, addMessageToChat, hany]
  constructor
  · rw [countId, h1, List.filter_append]
    have hfil : (removePlaceholders dom).filter (fun m => m.id = "error") = [] := by
      rw [List.filter_eq_nil_iff]
      intro m hm
      simp [hp m hm]
    rw [hfil]
    simp
  · rw [h1]
    have h2 : removePlaceholders (removePlaceholders dom
        ++ [{ id := "error", text := e1, role := Role.assistant,
              badge := none, isDummy := false }])
        = removePlaceholders dom
          ++ [{ id := "error", text := e1, role := Role.assistant,
                badge := none, isDummy := false }] := by
      simp [removePlaceholders, List.filter_append, List.filter_filter]
    have hany2 : (removePlaceholders dom
        ++ [({ id := "error", text := e1, role := Role.assistant,
               badge := none, isDummy := false } : Msg)]).any
          (fun m => m.id = "error") = true := by
      simp [List.any_append]
    simp [sendToServerFailure, h2, addMessageToChat, hany2]

/-- Witness for `single_error_bubble_per_session` on the empty session. -/
theorem single_error_bubble_per_session_witness :
    (∀ m ∈ ([] : Dom), m.id ≠ "error")
    ∧ countId (sendToServerFailure [] "boom") "error" = 1
    ∧ sendToServerFailure (sendToServerFailure [] "boom") "bang"
        = sendToServerFailure [] "boom" :=
  ⟨by simp,
    (single_error_bubble_per_session [] "boom" "bang" (by simp)).1,
    (single_error_bubble_per_session [] "boom" "bang" (by simp)).2⟩

/-- C9: in `updateCriticBadge` the badge's colour class is chosen from the
score only when the circle is first created; every later call overwrites
only the displayed number.  Across any sequence of later scores the colour
stays the one chosen at creation — even when a later score crosses a
colour threshold — while the text follows the last score written. -/
theorem badge_color_fixed_at_creation (s0 : ℚ) (ss : List ℚ) :
    (runBadge s0 ss).color = criticBadgeColor s0
    ∧ (runBadge s0 ss).text = some (lastOr s0 ss) := by
  have hcolor : ∀ (l : List ℚ) (b : Badge),
      (l.foldl (fun b s => updateCriticBadge (some b) s) b).color = b.color := by
    intro l
    induction l with
    | nil => intro b; rfl
    | cons s t ih =>
        intro b
        rw [List.foldl_cons, ih]
        rfl
  have htext : ∀ (l : List ℚ) (b : Badge) (q : ℚ), b.text = some q →
      (l.foldl (fun b s => updateCriticBadge (some b) s) b).text
        = some (lastOr q l) := by
    intro l
    induction l with
    | nil => intro b q hb; exact hb
    | cons s t ih =>
        intro b q _
        rw [List.foldl_cons]
        exact ih (updateCriticBadge (some b) s) s rfl
  exact ⟨hcolor ss _, htext ss _ s0 rfl⟩

/-- C10: an input whose trimmed text is empty makes `handleSend` a no-op:
no placeholder is added and nothing is scheduled for the server. -/
theorem handleSend_ignores_whitespace_input (input : List Char) (dom : Dom)
    (h : input.all isJsWhitespace = true) :
    handleSend input dom = { dom := dom, request := none } := by
  simp [handleSend, jsTrim_eq_nil_of_all input h]

/-- Witness for `handleSend_ignores_whitespace_input` on a whitespace-only
input. -/
theorem handleSend_ignores_whitespace_input_witness :
    ([' ', '\t', '\n'].all isJsWhitespace = true)
    ∧ handleSend [' ', '\t', '\n'] [] = { dom := [], request := none } :=
  ⟨by decide, handleSend_ignores_whitespace_input [' ', '\t', '\n'] [] (by decide)⟩

end Assistant
